import Mathlib

/-!
Shallow embedding of `instance_manager.py` (aws-helper): an EC2 instance
lifecycle manager.  Pure data is modelled directly; the side-effecting calls
(prints, EC2 transition requests, status polls, sleeps) are modelled as an
explicit event trace.  A possibly-diverging blocking poll loop is modelled by
feeding it the finite list of status codes the provider would answer with: a
run that exhausts the list without reaching the target state is marked
incomplete (`Bool` flag `false`), mirroring the unbounded `while` loop.
-/

set_option autoImplicit false

namespace InstanceManager

/-- AWS instance state codes, from the constants at the top of the module. -/
def PENDING : Nat := 0

def RUNNING : Nat := 16

def SHUTTING_DOWN : Nat := 32

def TERMINATED : Nat := 48

def STOPPING : Nat := 64

def STOPPED : Nat := 80

/-- A resolved EC2 instance handle: id, the `Name` tag, the cached numeric
state code (`instance.state_code`) and the cached state string
(`instance.state`). -/
structure Instance where
  id : String
  name : String
  state_code : Nat
  state : String
deriving DecidableEq, Repr

/-- Observable actions of a pool operation: a line printed to stdout, a
transition request to a specific instance handle (`instance.start()`,
`instance.stop()`, `instance.reboot()`), a status poll
(`_get_status(instance_id)`), or a `time.sleep` of the given seconds. -/
inductive Event where
  | printed (msg : String)
  | callStart (inst : Instance)
  | callStop (inst : Instance)
  | callReboot (inst : Instance)
  | pollStatus (instId : String)
  | sleepSec (n : Nat)
deriving DecidableEq, Repr

/-- Is the event a start/stop/reboot transition request? -/
def Event.isTransition : Event → Bool
  | .callStart _ => true
  | .callStop _ => true
  | .callReboot _ => true
  | _ => false

/-- Is the event a status poll? -/
def Event.isPoll : Event → Bool
  | .pollStatus _ => true
  | _ => false

/-- Is the event a sleep? -/
def Event.isSleep : Event → Bool
  | .sleepSec _ => true
  | _ => false

/-- The blocking poll loop
`while self._blocking and self._get_status(id) != TARGET: time.sleep(1)`,
given the successive status codes the provider answers with.  Returns the
trace of polls and sleeps and whether the loop terminated; an exhausted
response list means the real loop would still be spinning. -/
def pollLoop (target : Nat) (instId : String) : List Nat → List Event × Bool
  | [] => ([], false)
  | r :: rs =>
    if r = target then ([Event.pollStatus instId], true)
    else
      let rest := pollLoop target instId rs
      (Event.pollStatus instId :: Event.sleepSec 1 :: rest.1, rest.2)

/-- One iteration of `InstancePool.start` for a single instance. -/
def startOne (dry_run blocking : Bool) (oracle : String → List Nat)
    (inst : Instance) : List Event × Bool :=
  if inst.state_code = RUNNING then
    ([Event.printed ("Instance " ++ inst.name ++ " is already running, skip it.")], true)
  else
    let notice := Event.printed ("Starting " ++ inst.name ++ "...")
    if dry_run then ([notice], true)
    else if blocking then
      let loop := pollLoop RUNNING inst.id (oracle inst.id)
      (notice :: Event.callStart inst :: loop.1, loop.2)
    else ([notice, Event.callStart inst], true)

/-- One iteration of `InstancePool.stop` for a single instance. -/
def stopOne (dry_run blocking : Bool) (oracle : String → List Nat)
    (inst : Instance) : List Event × Bool :=
  if inst.state_code = STOPPED then
    ([Event.printed ("Instance " ++ inst.name ++ " is already stopped, skip it.")], true)
  else
    let notice := Event.printed ("Stopping " ++ inst.name ++ "...")
    if dry_run then ([notice], true)
    else if blocking then
      let loop := pollLoop STOPPED inst.id (oracle inst.id)
      (notice :: Event.callStop inst :: loop.1, loop.2)
    else ([notice, Event.callStop inst], true)

/-- One iteration of `InstancePool.reboot` for a single instance. -/
def rebootOne (dry_run blocking : Bool) (oracle : String → List Nat)
    (inst : Instance) : List Event × Bool :=
  if inst.state_code ≠ RUNNING then
    ([Event.printed ("Instance " ++ inst.name ++ " is not running, skip it.")], true)
  else
    let notice := Event.printed ("Rebooting " ++ inst.name ++ "...")
    if dry_run then ([notice], true)
    else if blocking then
      let loop := pollLoop RUNNING inst.id (oracle inst.id)
      (notice :: Event.callReboot inst :: loop.1, loop.2)
    else ([notice, Event.callReboot inst], true)

/-- One iteration of `InstancePool.state` for a single instance. -/
def stateOne (inst : Instance) : List Event × Bool :=
  ([Event.printed ("Instance " ++ inst.name ++ " state: " ++ inst.state)], true)

/-- Sequential iteration over the resolved instances: events accumulate in
order; a diverging iteration cuts the run short (later instances are never
reached), mirroring the single-threaded `for` loop. -/
def runAll (f : Instance → List Event × Bool) : List Instance → List Event × Bool
  | [] => ([], true)
  | i :: is =>
    let r := f i
    if r.2 then
      let rest := runAll f is
      (r.1 ++ rest.1, rest.2)
    else (r.1, false)

/-- The pool: resolved instance handles plus the two behaviour flags. -/
structure InstancePool where
  instances : List Instance
  dry_run : Bool
  blocking : Bool
deriving DecidableEq, Repr

/-- The four commands accepted by the CLI and dispatched by name onto the
pool (`getattr(instance_pool, args.command)`). -/
inductive Command where
  | start
  | stop
  | reboot
  | state
deriving DecidableEq, Repr

/-- Run one pool operation on one instance. -/
def runOne (cmd : Command) (dry_run blocking : Bool) (oracle : String → List Nat)
    (inst : Instance) : List Event × Bool :=
  match cmd with
  | .start => startOne dry_run blocking oracle inst
  | .stop => stopOne dry_run blocking oracle inst
  | .reboot => rebootOne dry_run blocking oracle inst
  | .state => stateOne inst

/-- Run a pool operation over the whole pool.  `oracle instId` is the list of
status codes `_get_status instId` would successively return. -/
def runPool (cmd : Command) (pool : InstancePool) (oracle : String → List Nat) :
    List Event × Bool :=
  runAll (runOne cmd pool.dry_run pool.blocking oracle) pool.instances

/-- The one line printed per instance on a dry run, read off the branches of
the four operations: the skip notice when the instance is already in (or, for
reboot, not in) the required state, the action notice otherwise. -/
def dryRunMsg : Command → Instance → String
  | .start, i =>
    if i.state_code = RUNNING then "Instance " ++ i.name ++ " is already running, skip it."
    else "Starting " ++ i.name ++ "..."
  | .stop, i =>
    if i.state_code = STOPPED then "Instance " ++ i.name ++ " is already stopped, skip it."
    else "Stopping " ++ i.name ++ "..."
  | .reboot, i =>
    if i.state_code ≠ RUNNING then "Instance " ++ i.name ++ " is not running, skip it."
    else "Rebooting " ++ i.name ++ "..."
  | .state, i => "Instance " ++ i.name ++ " state: " ++ i.state

/-!
Constructor (`InstancePool.__init__`) and CLI resolution (`main`).

Python name resolution matters here: the handler clause
`except NoAuthHandlerFound, e:` evaluates the name `NoAuthHandlerFound` only
when an exception reaches it, and that name is looked up among the module's
bindings at that moment.  The module only ever binds the names below (its
imports, constants, classes and functions); `NoAuthHandlerFound` is not among
them, so evaluating the handler clause raises an uncaught `NameError`.
-/

/-- Names bound at module scope of `instance_manager.py`: the `import` /
`from ... import` statements, the state-code constants, and the top-level
classes and functions. -/
def moduleBindings : List String :=
  ["argparse", "logging", "sys", "expanduser", "time", "IterableUserDict",
   "boto", "EC2ResponseError", "yaml",
   "PENDING", "RUNNING", "SHUTTING_DOWN", "TERMINATED", "STOPPING", "STOPPED",
   "InstancePool", "Config", "parse_args", "main"]

/-- Outcome of `boto.ec2.connect_to_region("us-east-1")`: either a usable
connection or a raised exception, identified by its class name (missing
credentials raise `NoAuthHandlerFound`). -/
inductive ConnectOutcome where
  | ok
  | raises (excName : String)
deriving DecidableEq, Repr

/-- The external provider: the connect outcome, and
`get_only_instances(instance_ids)`, which either returns resolved handles or
raises `EC2ResponseError` carrying a message. -/
structure Provider where
  connectOutcome : ConnectOutcome
  resolve : List String → Except String (List Instance)

/-- Observable actions during pool construction. -/
inductive InitEvent where
  | printed (msg : String)
  | connectAttempt (region : String)
  | resolveAttempt (ids : List String)
deriving DecidableEq, Repr

/-- How pool construction ends: a constructed pool, `sys.exit(code)`, or an
uncaught exception (identified by class name) terminating the process with a
traceback. -/
inductive InitOutcome where
  | ok (pool : InstancePool)
  | exited (code : Nat)
  | uncaught (excName : String)
deriving DecidableEq, Repr

/-- Python truthiness of the `instance_ids` argument as used by
`if not instance_ids:` — `None` and the empty list are falsy. -/
def truthyIds : Option (List String) → Bool
  | none => false
  | some l => !l.isEmpty

/-- `InstancePool.__init__`.  `ids` is `Option` because `main` may pass the
`None` result of a failed `config.get` lookup.  Returns the outcome together
with the trace of prints and provider calls. -/
def instancePoolInit (p : Provider) (ids : Option (List String))
    (dry_run blocking : Bool) : InitOutcome × List InitEvent :=
  if truthyIds ids = false then
    (.exited 1, [.printed "No instance ids found."])
  else
    let idList := ids.getD []
    match p.connectOutcome with
    | .raises excName =>
      -- `except NoAuthHandlerFound, e:` — the clause name must resolve first.
      if moduleBindings.contains "NoAuthHandlerFound" then
        if excName = "NoAuthHandlerFound" then
          (.exited 1,
           [.connectAttempt "us-east-1",
            .printed "Authentication error, please make sure you have the correct boto config file."])
        else (.uncaught excName, [.connectAttempt "us-east-1"])
      else (.uncaught "NameError", [.connectAttempt "us-east-1"])
    | .ok =>
      match p.resolve idList with
      | .error msg =>
        (.exited 1,
         [.connectAttempt "us-east-1", .resolveAttempt idList,
          .printed ("Error connecting instances: " ++ msg)])
      | .ok insts =>
        (.ok ⟨insts, dry_run, blocking⟩,
         [.connectAttempt "us-east-1", .resolveAttempt idList])

/-!
Config loader (`class Config`): `self.data = dict()`, then
`self.data.update(yaml.safe_load(site))`, then the same for the user file,
each wrapped in `try/except` that logs a warning on failure.
-/

/-- A YAML mapping of group name to instance-id list, as an association list
in document order. -/
abbrev ConfigData := List (String × List String)

/-- `dict` key lookup (`config.get(key)`). -/
def cfgGet : ConfigData → String → Option (List String)
  | [], _ => none
  | (k', v) :: rest, k => if k' = k then some v else cfgGet rest k

/-- Set one key in the dict: overwrite the existing binding or append. -/
def setKey (d : ConfigData) (k : String) (v : List String) : ConfigData :=
  match d with
  | [] => [(k, v)]
  | (k', v') :: rest => if k' = k then (k, v) :: rest else (k', v') :: setKey rest k v

/-- `dict.update`: set every key of the argument mapping in order. -/
def dictUpdate (d : ConfigData) : ConfigData → ConfigData
  | [] => d
  | kv :: rest => dictUpdate (setKey d kv.1 kv.2) rest

/-- Outcome of opening and parsing one config file. -/
inductive ReadResult where
  | ok (m : ConfigData)
  | err (msg : String)
deriving Repr

/-- `Config._load_config` for one file, threading the dict and the warning
log: on failure the dict is untouched and a warning is logged. -/
def loadOne (st : ConfigData × List String) (r : ReadResult) : ConfigData × List String :=
  match r with
  | .ok m => (dictUpdate st.1 m, st.2)
  | .err msg => (st.1, st.2 ++ ["Failed to load config file: " ++ msg])

/-- `Config.__init__`: empty dict, then load the site file, then the user
file.  Returns the merged mapping and the warning log. -/
def configLoad (site user : ReadResult) : ConfigData × List String :=
  loadOne (loadOne ([], []) site) user

/-- Id resolution in `main`:
`config.get(args.instances) if args.group else args.instances.split(args.delimiter)`. -/
def mainResolve (cfg : ConfigData) (group : Bool) (arg delim : String) :
    Option (List String) :=
  if group then cfgGet cfg arg else some (arg.splitOn delim)

/-- `main` up to and including pool construction. -/
def mainConstructPool (p : Provider) (cfg : ConfigData) (group : Bool)
    (arg delim : String) (dry_run blocking : Bool) : InitOutcome × List InitEvent :=
  instancePoolInit p (mainResolve cfg group arg delim) dry_run blocking

/-!  General lemmas about the poll loop and the sequential iteration. -/

theorem pollLoop_mem (target : Nat) (instId : String) (rs : List Nat) :
    ∀ e ∈ (pollLoop target instId rs).1, e = Event.pollStatus instId ∨ e = Event.sleepSec 1 := by
  induction rs with
  | nil => simp [pollLoop]
  | cons r rs ih =>
    intro e he
    simp only [pollLoop] at he
    split at he
    · simp only [List.mem_singleton] at he
      exact Or.inl he
    · simp only [List.mem_cons] at he
      rcases he with h | h | h
      · exact Or.inl h
      · exact Or.inr h
      · exact ih e h

theorem runAll_mem (f : Instance → List Event × Bool) (l : List Instance) :
    ∀ e ∈ (runAll f l).1, ∃ i ∈ l, e ∈ (f i).1 := by
  induction l with
  | nil => simp [runAll]
  | cons i is ih =>
    intro e he
    rcases hfi : f i with ⟨es, ok⟩
    cases ok with
    | false =>
      simp [runAll, hfi] at he
      exact ⟨i, List.mem_cons_self i is, by rw [hfi]; exact he⟩
    | true =>
      simp [runAll, hfi] at he
      rcases he with h | h
      · exact ⟨i, List.mem_cons_self i is, by rw [hfi]; exact h⟩
      · obtain ⟨j, hj, hje⟩ := ih e h
        exact ⟨j, List.mem_cons_of_mem i hj, hje⟩

theorem runAll_complete_mem (f : Instance → List Event × Bool) (l : List Instance)
    (h2 : (runAll f l).2 = true) :
    ∀ i ∈ l, ∀ e ∈ (f i).1, e ∈ (runAll f l).1 := by
  induction l with
  | nil => simp
  | cons j js ih =>
    intro i hi e he
    rcases hfj : f j with ⟨es, ok⟩
    cases ok with
    | false => simp [runAll, hfj] at h2
    | true =>
      simp only [runAll, hfj, if_true] at h2 ⊢
      rcases List.mem_cons.mp hi with rfl | hi
      · rw [hfj] at he
        exact List.mem_append.mpr (Or.inl he)
      · exact List.mem_append.mpr (Or.inr (ih h2 i hi e he))

theorem runAll_eq_map (f : Instance → List Event × Bool) (g : Instance → Event)
    (hf : ∀ i, f i = ([g i], true)) (l : List Instance) :
    runAll f l = (l.map g, true) := by
  induction l with
  | nil => simp [runAll]
  | cons i is ih => simp [runAll, hf i, ih]

theorem runAll_congr (f g : Instance → List Event × Bool) (h : ∀ i, f i = g i)
    (l : List Instance) : runAll f l = runAll g l := by
  induction l with
  | nil => rfl
  | cons i is ih => simp [runAll, h i, ih]

theorem runAll_total (f : Instance → List Event × Bool) (p : Event → Bool)
    (h : ∀ i, (f i).2 = true ∧ (f i).1.all p = true) (l : List Instance) :
    (runAll f l).2 = true ∧ (runAll f l).1.all p = true := by
  induction l with
  | nil => simp [runAll]
  | cons i is ih =>
    rcases hfi : f i with ⟨es, ok⟩
    have hi := h i
    rw [hfi] at hi
    cases ok with
    | false => simp at hi
    | true =>
      simp [runAll, hfi, List.all_append]
      have hi1 : ∀ x ∈ es, p x := by simpa using hi.2
      have ih1 : ∀ x ∈ (runAll f is).1, p x := by simpa using ih.2
      exact ⟨ih.1, hi1, ih1⟩

/-!  Per-instance facts about the four operations. -/

theorem runOne_dry (cmd : Command) (blocking : Bool) (oracle : String → List Nat)
    (i : Instance) :
    runOne cmd true blocking oracle i = ([Event.printed (dryRunMsg cmd i)], true) := by
  cases cmd <;>
    simp only [runOne, startOne, stopOne, rebootOne, stateOne, dryRunMsg] <;>
    split <;> simp_all

theorem pollLoop_no_transition (target : Nat) (instId : String) (rs : List Nat) :
    (pollLoop target instId rs).1.filter Event.isTransition = [] := by
  rw [List.filter_eq_nil_iff]
  intro e he
  rcases pollLoop_mem target instId rs e he with rfl | rfl <;> simp [Event.isTransition]

theorem runOne_nonblocking (cmd : Command) (dry_run : Bool)
    (o1 o2 : String → List Nat) (i : Instance) :
    (runOne cmd dry_run false o1 i).2 = true
    ∧ (runOne cmd dry_run false o1 i).1.all (fun e => !e.isPoll && !e.isSleep) = true
    ∧ runOne cmd dry_run false o1 i = runOne cmd dry_run false o2 i := by
  cases cmd <;>
    simp only [runOne, startOne, stopOne, rebootOne, stateOne] <;>
    (try split_ifs) <;> simp_all [Event.isPoll, Event.isSleep]

theorem runOne_blocking_filter (cmd : Command) (dry_run : Bool)
    (o1 o2 : String → List Nat) (i : Instance)
    (h : (runOne cmd dry_run true o1 i).2 = true) :
    (runOne cmd dry_run true o1 i).1.filter Event.isTransition
      = (runOne cmd dry_run false o2 i).1.filter Event.isTransition := by
  cases cmd <;>
    simp only [runOne, startOne, stopOne, rebootOne, stateOne] <;>
    (try split_ifs) <;>
    simp_all [Event.isTransition, pollLoop_no_transition]

theorem startOne_callStart (dry_run blocking : Bool) (oracle : String → List Nat)
    (i inst : Instance) (h : Event.callStart inst ∈ (startOne dry_run blocking oracle i).1) :
    inst = i ∧ i.state_code ≠ RUNNING := by
  by_cases hr : i.state_code = RUNNING
  · simp [startOne, hr] at h
  · refine ⟨?_, hr⟩
    cases dry_run
    · cases blocking
      · simp [startOne, hr] at h
        exact h
      · simp [startOne, hr] at h
        rcases h with h | h
        · exact h
        · rcases pollLoop_mem RUNNING i.id (oracle i.id) _ h with h' | h' <;> simp at h'
    · simp [startOne, hr] at h

theorem stopOne_callStop (dry_run blocking : Bool) (oracle : String → List Nat)
    (i inst : Instance) (h : Event.callStop inst ∈ (stopOne dry_run blocking oracle i).1) :
    inst = i ∧ i.state_code ≠ STOPPED := by
  by_cases hr : i.state_code = STOPPED
  · simp [stopOne, hr] at h
  · refine ⟨?_, hr⟩
    cases dry_run
    · cases blocking
      · simp [stopOne, hr] at h
        exact h
      · simp [stopOne, hr] at h
        rcases h with h | h
        · exact h
        · rcases pollLoop_mem STOPPED i.id (oracle i.id) _ h with h' | h' <;> simp at h'
    · simp [stopOne, hr] at h

theorem rebootOne_callReboot (dry_run blocking : Bool) (oracle : String → List Nat)
    (i inst : Instance) (h : Event.callReboot inst ∈ (rebootOne dry_run blocking oracle i).1) :
    inst = i ∧ i.state_code = RUNNING := by
  by_cases hr : i.state_code = RUNNING
  · refine ⟨?_, hr⟩
    cases dry_run
    · cases blocking
      · simp [rebootOne, hr] at h
        exact h
      · simp [rebootOne, hr] at h
        rcases h with h | h
        · exact h
        · rcases pollLoop_mem RUNNING i.id (oracle i.id) _ h with h' | h' <;> simp at h'
    · simp [rebootOne, hr] at h
  · simp [rebootOne, hr] at h

theorem runAll_filter_eq (f g : Instance → List Event × Bool) (p : Event → Bool)
    (hg : ∀ i, (g i).2 = true)
    (hfg : ∀ i, (f i).2 = true → (f i).1.filter p = (g i).1.filter p)
    (l : List Instance) (h : (runAll f l).2 = true) :
    (runAll f l).1.filter p = (runAll g l).1.filter p := by
  induction l with
  | nil => rfl
  | cons i is ih =>
    rcases hfi : f i with ⟨es, ok⟩
    cases ok with
    | false => simp [runAll, hfi] at h
    | true =>
      rcases hgi : g i with ⟨es', ok'⟩
      have hok' : ok' = true := by have := hg i; rw [hgi] at this; exact this
      subst hok'
      have hes : es.filter p = es'.filter p := by
        have := hfg i (by rw [hfi])
        rw [hfi, hgi] at this
        exact this
      have h2 : (runAll f is).2 = true := by
        simp [runAll, hfi] at h
        exact h
      simp [runAll, hfi, hgi, List.filter_append, hes, ih h2]

/-- C2: with `dry_run = true`, every command's run over any instance list
terminates and its trace is exactly the per-instance skip/action notice
prints, in pool order — in particular no start/stop/reboot transition call is
ever issued to any instance. -/
theorem c2_dry_run_no_transitions (cmd : Command) (insts : List Instance)
    (blocking : Bool) (oracle : String → List Nat) :
    runPool cmd ⟨insts, true, blocking⟩ oracle
        = (insts.map (fun i => Event.printed (dryRunMsg cmd i)), true)
    ∧ ((runPool cmd ⟨insts, true, blocking⟩ oracle).1.all
        (fun e => !e.isTransition)) = true := by
  have h1 : runPool cmd ⟨insts, true, blocking⟩ oracle
      = (insts.map (fun i => Event.printed (dryRunMsg cmd i)), true) :=
    runAll_eq_map _ _ (fun i => runOne_dry cmd blocking oracle i) insts
  refine ⟨h1, ?_⟩
  rw [h1]
  simp [Event.isTransition]

/-- C7: with `blocking = false`, every command's run over any instance list
terminates (returns immediately), performs no status poll and no sleep, its
trace does not depend on the provider's poll answers, and it issues exactly
the transition calls that the corresponding completed blocking run issues. -/
theorem c7_nonblocking_no_poll (cmd : Command) (insts : List Instance)
    (dry_run : Bool) (o1 o2 : String → List Nat) :
    (runPool cmd ⟨insts, dry_run, false⟩ o1).2 = true
    ∧ ((runPool cmd ⟨insts, dry_run, false⟩ o1).1.all
        (fun e => !e.isPoll && !e.isSleep)) = true
    ∧ runPool cmd ⟨insts, dry_run, false⟩ o1 = runPool cmd ⟨insts, dry_run, false⟩ o2
    ∧ ((runPool cmd ⟨insts, dry_run, true⟩ o1).2 = true →
        (runPool cmd ⟨insts, dry_run, true⟩ o1).1.filter Event.isTransition
          = (runPool cmd ⟨insts, dry_run, false⟩ o2).1.filter Event.isTransition) := by
  have htot := runAll_total (runOne cmd dry_run false o1) (fun e => !e.isPoll && !e.isSleep)
    (fun i => ⟨(runOne_nonblocking cmd dry_run o1 o2 i).1,
               (runOne_nonblocking cmd dry_run o1 o2 i).2.1⟩) insts
  refine ⟨htot.1, htot.2, ?_, ?_⟩
  · exact runAll_congr _ _ (fun i => (runOne_nonblocking cmd dry_run o1 o2 i).2.2) insts
  · intro hb
    exact runAll_filter_eq _ _ Event.isTransition
      (fun i => (runOne_nonblocking cmd dry_run o2 o2 i).1)
      (fun i hi => runOne_blocking_filter cmd dry_run o1 o2 i hi) insts hb

/-- C8: the `state` command is read-only: for every pool (any flags) its
trace is exactly one printed name/state line per instance, it terminates
without blocking, and it contains no transition, poll or sleep event. -/
theorem c8_state_read_only (pool : InstancePool) (oracle : String → List Nat) :
    runPool .state pool oracle
        = (pool.instances.map
            (fun i => Event.printed ("Instance " ++ i.name ++ " state: " ++ i.state)), true)
    ∧ ((runPool .state pool oracle).1.all
        (fun e => !e.isTransition && !e.isPoll && !e.isSleep)) = true := by
  have h1 : runPool .state pool oracle
      = (pool.instances.map
          (fun i => Event.printed ("Instance " ++ i.name ++ " state: " ++ i.state)), true) :=
    runAll_eq_map _ _ (fun i => rfl) pool.instances
  refine ⟨h1, ?_⟩
  rw [h1]
  simp [Event.isTransition, Event.isPoll, Event.isSleep]

/-- C3: `start()` never issues a start transition to an instance observed as
already running, and `stop()` never issues a stop transition to an instance
observed as already stopped; in a completed run each such instance instead
gets its skip notice printed. -/
theorem c3_skip_when_already_in_target_state (pool : InstancePool)
    (oracle : String → List Nat) :
    (∀ inst : Instance, Event.callStart inst ∈ (runPool .start pool oracle).1 →
        inst.state_code ≠ RUNNING)
    ∧ (∀ inst : Instance, Event.callStop inst ∈ (runPool .stop pool oracle).1 →
        inst.state_code ≠ STOPPED)
    ∧ ((runPool .start pool oracle).2 = true →
        ∀ inst ∈ pool.instances, inst.state_code = RUNNING →
          Event.printed ("Instance " ++ inst.name ++ " is already running, skip it.")
            ∈ (runPool .start pool oracle).1)
    ∧ ((runPool .stop pool oracle).2 = true →
        ∀ inst ∈ pool.instances, inst.state_code = STOPPED →
          Event.printed ("Instance " ++ inst.name ++ " is already stopped, skip it.")
            ∈ (runPool .stop pool oracle).1) := by
  refine ⟨?_, ?_, ?_, ?_⟩
  · intro inst h
    obtain ⟨i, _, hei⟩ := runAll_mem _ pool.instances _ h
    obtain ⟨rfl, hr⟩ := startOne_callStart pool.dry_run pool.blocking oracle i inst hei
    exact hr
  · intro inst h
    obtain ⟨i, _, hei⟩ := runAll_mem _ pool.instances _ h
    obtain ⟨rfl, hr⟩ := stopOne_callStop pool.dry_run pool.blocking oracle i inst hei
    exact hr
  · intro h2 inst hi hr
    refine runAll_complete_mem _ pool.instances h2 inst hi _ ?_
    simp [runOne, startOne, hr]
  · intro h2 inst hi hr
    refine runAll_complete_mem _ pool.instances h2 inst hi _ ?_
    simp [runOne, stopOne, hr]

/-- C4: `reboot()` issues a reboot transition only to instances whose
pre-transition observed state is running; in a completed run every instance
not in the running state gets the "not running" skip notice and, by the first
part, no transition. -/
theorem c4_reboot_only_when_running (pool : InstancePool)
    (oracle : String → List Nat) :
    (∀ inst : Instance, Event.callReboot inst ∈ (runPool .reboot pool oracle).1 →
        inst.state_code = RUNNING)
    ∧ ((runPool .reboot pool oracle).2 = true →
        ∀ inst ∈ pool.instances, inst.state_code ≠ RUNNING →
          Event.printed ("Instance " ++ inst.name ++ " is not running, skip it.")
            ∈ (runPool .reboot pool oracle).1) := by
  refine ⟨?_, ?_⟩
  · intro inst h
    obtain ⟨i, _, hei⟩ := runAll_mem _ pool.instances _ h
    obtain ⟨rfl, hr⟩ := rebootOne_callReboot pool.dry_run pool.blocking oracle i inst hei
    exact hr
  · intro h2 inst hi hr
    refine runAll_complete_mem _ pool.instances h2 inst hi _ ?_
    simp [runOne, rebootOne, hr]

/-!  Lemmas about the config dict operations. -/

theorem cfgGet_setKey (d : ConfigData) (k : String) (v : List String) (k' : String) :
    cfgGet (setKey d k v) k' = if k = k' then some v else cfgGet d k' := by
  induction d with
  | nil => simp [setKey, cfgGet]
  | cons kv rest ih =>
    rcases kv with ⟨k0, v0⟩
    by_cases h0 : k0 = k
    · subst h0
      simp only [setKey, if_pos rfl, cfgGet]
      split <;> simp_all [cfgGet]
    · simp only [setKey, if_neg h0, cfgGet]
      by_cases h1 : k0 = k'
      · have hk : ¬(k = k') := fun hh => h0 (h1.trans hh.symm)
        simp [h1, hk]
      · simp [h1, ih]

theorem cfgGet_eq_none (d : ConfigData) (k : String) (h : k ∉ d.map Prod.fst) :
    cfgGet d k = none := by
  induction d with
  | nil => rfl
  | cons kv rest ih =>
    rcases kv with ⟨k0, v0⟩
    simp only [List.map_cons, List.mem_cons, not_or] at h
    have h0 : ¬(k0 = k) := fun hh => h.1 hh.symm
    simp [cfgGet, h0, ih h.2]

theorem cfgGet_dictUpdate (d kvs : ConfigData) (k : String)
    (h : (kvs.map Prod.fst).Nodup) :
    cfgGet (dictUpdate d kvs) k = (cfgGet kvs k <|> cfgGet d k) := by
  induction kvs generalizing d with
  | nil => simp [dictUpdate, cfgGet]
  | cons kv rest ih =>
    rcases kv with ⟨k0, v0⟩
    simp only [List.map_cons, List.nodup_cons] at h
    show cfgGet (dictUpdate (setKey d k0 v0) rest) k = _
    rw [ih (setKey d k0 v0) h.2, cfgGet_setKey]
    by_cases hk : k0 = k
    · subst hk
      rw [cfgGet_eq_none rest k0 h.1]
      simp [cfgGet]
    · simp [cfgGet, hk]

theorem cfgGet_dictUpdate_nil (kvs : ConfigData) (k : String)
    (h : (kvs.map Prod.fst).Nodup) :
    cfgGet (dictUpdate [] kvs) k = cfgGet kvs k := by
  rw [cfgGet_dictUpdate [] kvs k h]
  cases cfgGet kvs k <;> simp [cfgGet]

/-- C5: when both config files load, the merged mapping is the union of the
two with the user value winning on every key collision; a failed read of
either file only logs a warning and leaves the other file's entries intact. -/
theorem c5_user_overrides_site (site user : ConfigData) (k e1 e2 : String)
    (hs : (site.map Prod.fst).Nodup) (hu : (user.map Prod.fst).Nodup) :
    cfgGet (configLoad (.ok site) (.ok user)).1 k = (cfgGet user k <|> cfgGet site k)
    ∧ (configLoad (.ok site) (.ok user)).2 = []
    ∧ cfgGet (configLoad (.err e1) (.ok user)).1 k = cfgGet user k
    ∧ (configLoad (.err e1) (.ok user)).2 = ["Failed to load config file: " ++ e1]
    ∧ cfgGet (configLoad (.ok site) (.err e2)).1 k = cfgGet site k
    ∧ (configLoad (.ok site) (.err e2)).2 = ["Failed to load config file: " ++ e2] := by
  refine ⟨?_, rfl, ?_, rfl, ?_, rfl⟩
  · show cfgGet (dictUpdate (dictUpdate [] site) user) k = _
    rw [cfgGet_dictUpdate _ user k hu, cfgGet_dictUpdate_nil site k hs]
  · exact cfgGet_dictUpdate_nil user k hu
  · exact cfgGet_dictUpdate_nil site k hs

/-- C6: constructing the pool with an empty instance-id list prints the
no-instance-ids message and exits with code 1, with no provider interaction
at all (the trace holds no connect or resolve attempt), whatever the provider
would have done. -/
theorem c6_empty_ids_exit_before_connect (p : Provider) (dry_run blocking : Bool) :
    instancePoolInit p (some []) dry_run blocking
      = (.exited 1, [.printed "No instance ids found."]) := rfl

/-- C1: the claim says an authentication failure during construction is
caught, a friendly message is printed and the process exits cleanly with
code 1.  The code is a slip: the handler clause `except NoAuthHandlerFound`
names an identifier the module never imports, so when `connect_to_region`
raises `NoAuthHandlerFound` the clause itself fails to resolve and the
process dies with an uncaught `NameError` — the friendly message is never
printed.  This theorem evaluates the embedded constructor at that failing
input. -/
theorem c1_auth_failure_uncaught_name_error :
    instancePoolInit
        ⟨.raises "NoAuthHandlerFound", fun _ => .ok []⟩ (some ["i-1"]) false true
      = (.uncaught "NameError", [.connectAttempt "us-east-1"]) := by
  decide

/-- C9: when the ids are non-empty, the connection succeeds and resolving the
ids raises `EC2ResponseError` with some message, construction prints the
error with the provider's message and exits with code 1. -/
theorem c9_resolution_error_exit (p : Provider) (ids : List String)
    (dry_run blocking : Bool) (msg : String)
    (h1 : ids ≠ []) (h2 : p.connectOutcome = .ok) (h3 : p.resolve ids = .error msg) :
    instancePoolInit p (some ids) dry_run blocking
      = (.exited 1, [.connectAttempt "us-east-1", .resolveAttempt ids,
                     .printed ("Error connecting instances: " ++ msg)]) := by
  have ht : truthyIds (some ids) = true := by simp [truthyIds, h1]
  simp [instancePoolInit, ht, h2, h3]

/-- C10: with the group flag set and a group name absent from the merged
config, `config.get` yields `None`, the pool constructor rejects it as an
absent id list, and the run exits with code 1 having printed the
no-instance-ids message and attempted no provider connection. -/
theorem c10_missing_group_exit (p : Provider) (cfg : ConfigData)
    (arg delim : String) (dry_run blocking : Bool)
    (h : cfgGet cfg arg = none) :
    mainConstructPool p cfg true arg delim dry_run blocking
      = (.exited 1, [.printed "No instance ids found."]) := by
  simp [mainConstructPool, mainResolve, h, instancePoolInit, truthyIds]

/-- Witness for C3 on a concrete two-instance pool: `i-1` is already running
and only gets the skip line, while the start call that does appear targets
the stopped `i-2`. -/
theorem c3_skip_when_already_in_target_state_witness :
    (Event.callStart ⟨"i-2", "db", 80, "stopped"⟩
        ∈ (runPool .start ⟨[⟨"i-1", "web", 16, "running"⟩, ⟨"i-2", "db", 80, "stopped"⟩],
            false, false⟩ (fun _ => [])).1
      ∧ (⟨"i-2", "db", 80, "stopped"⟩ : Instance).state_code ≠ RUNNING)
    ∧ Event.printed "Instance web is already running, skip it."
        ∈ (runPool .start ⟨[⟨"i-1", "web", 16, "running"⟩, ⟨"i-2", "db", 80, "stopped"⟩],
            false, false⟩ (fun _ => [])).1 :=
  ⟨⟨by decide,
    (c3_skip_when_already_in_target_state
        ⟨[⟨"i-1", "web", 16, "running"⟩, ⟨"i-2", "db", 80, "stopped"⟩], false, false⟩
        (fun _ => [])).1 ⟨"i-2", "db", 80, "stopped"⟩ (by decide)⟩,
   (c3_skip_when_already_in_target_state
        ⟨[⟨"i-1", "web", 16, "running"⟩, ⟨"i-2", "db", 80, "stopped"⟩], false, false⟩
        (fun _ => [])).2.2.1 (by decide) ⟨"i-1", "web", 16, "running"⟩ (by decide) (by decide)⟩

/-- Witness for C4 on a concrete two-instance pool: the reboot call that
appears targets the running `i-1`, and the stopped `i-2` gets the
"not running" skip line. -/
theorem c4_reboot_only_when_running_witness :
    (Event.callReboot ⟨"i-1", "web", 16, "running"⟩
        ∈ (runPool .reboot ⟨[⟨"i-1", "web", 16, "running"⟩, ⟨"i-2", "db", 80, "stopped"⟩],
            false, false⟩ (fun _ => [])).1
      ∧ (⟨"i-1", "web", 16, "running"⟩ : Instance).state_code = RUNNING)
    ∧ Event.printed "Instance db is not running, skip it."
        ∈ (runPool .reboot ⟨[⟨"i-1", "web", 16, "running"⟩, ⟨"i-2", "db", 80, "stopped"⟩],
            false, false⟩ (fun _ => [])).1 :=
  ⟨⟨by decide,
    (c4_reboot_only_when_running
        ⟨[⟨"i-1", "web", 16, "running"⟩, ⟨"i-2", "db", 80, "stopped"⟩], false, false⟩
        (fun _ => [])).1 ⟨"i-1", "web", 16, "running"⟩ (by decide)⟩,
   (c4_reboot_only_when_running
        ⟨[⟨"i-1", "web", 16, "running"⟩, ⟨"i-2", "db", 80, "stopped"⟩], false, false⟩
        (fun _ => [])).2 (by decide) ⟨"i-2", "db", 80, "stopped"⟩ (by decide) (by decide)⟩

/-- Witness for C5 on concrete configs: both files mention `web`, and the
merged value for `web` is the user one. -/
theorem c5_user_overrides_site_witness :
    cfgGet (configLoad (.ok [("web", ["i-1"]), ("db", ["i-9"])])
        (.ok [("web", ["i-2"])])).1 "web"
      = (cfgGet [("web", ["i-2"])] "web"
          <|> cfgGet [("web", ["i-1"]), ("db", ["i-9"])] "web") :=
  (c5_user_overrides_site [("web", ["i-1"]), ("db", ["i-9"])] [("web", ["i-2"])]
    "web" "boom-site" "boom-user" (by decide) (by decide)).1

/-- Witness for C7 on a concrete stopped instance: the completed blocking run
and the non-blocking run issue the same (single) start transition. -/
theorem c7_nonblocking_no_poll_witness :
    (runPool .start ⟨[⟨"i-1", "web", 80, "stopped"⟩], false, true⟩ (fun _ => [16])).2 = true
    ∧ (runPool .start ⟨[⟨"i-1", "web", 80, "stopped"⟩], false, true⟩
          (fun _ => [16])).1.filter Event.isTransition
        = (runPool .start ⟨[⟨"i-1", "web", 80, "stopped"⟩], false, false⟩
          (fun _ => [])).1.filter Event.isTransition :=
  ⟨by decide,
   (c7_nonblocking_no_poll .start [⟨"i-1", "web", 80, "stopped"⟩] false
      (fun _ => [16]) (fun _ => [])).2.2.2 (by decide)⟩

/-- Witness for C9 on a concrete provider whose id resolution raises
`EC2ResponseError` with a not-found message. -/
theorem c9_resolution_error_exit_witness :
    instancePoolInit ⟨.ok, fun _ => .error "InvalidInstanceID.NotFound"⟩
        (some ["i-404"]) false true
      = (.exited 1, [.connectAttempt "us-east-1", .resolveAttempt ["i-404"],
                     .printed ("Error connecting instances: " ++ "InvalidInstanceID.NotFound")]) :=
  c9_resolution_error_exit ⟨.ok, fun _ => .error "InvalidInstanceID.NotFound"⟩
    ["i-404"] false true "InvalidInstanceID.NotFound" (by decide) rfl rfl

/-- Witness for C10 on a concrete config that has a `web` group but no `db`
group, with the group flag set and `db` requested. -/
theorem c10_missing_group_exit_witness :
    mainConstructPool ⟨.ok, fun _ => .ok []⟩ [("web", ["i-1", "i-2"])]
        true "db" "," false true
      = (.exited 1, [.printed "No instance ids found."]) :=
  c10_missing_group_exit ⟨.ok, fun _ => .ok []⟩ [("web", ["i-1", "i-2"])]
    "db" "," false true (by decide)

end InstanceManager
